import Mathlib

/-!
Verification development for the Leo Bodnar GPSDO configuration engine
(lbgpsdo.py).  The Python classes `GPSDO` and `GPSDODevice` are shallowly
embedded: the mutable settings object becomes the structure `GPSDOModel`
(each PLL parameter is an `Option Int`, `None` meaning undefined), the
`update` method becomes a pure function returning `Except`, the
`freqplan` method becomes a pure function computing exact rationals, and
the register encode/decode paths of `GPSDODevice.write` /
`GPSDODevice.read_config` become pure functions on byte lists.
-/

/-- The mutable configuration state of a `GPSDO` object.  Mirrors the
attributes set in `GPSDO.__init__`: `out1`/`out2` are booleans, `level`
is always an integer, and the nine PLL parameters are optional integers
(`None` in Python = `none` here). -/
structure GPSDOModel where
  out1 : Bool
  out2 : Bool
  level : Int
  fin : Option Int
  n3 : Option Int
  n2_hs : Option Int
  n2_ls : Option Int
  n1_hs : Option Int
  nc1_ls : Option Int
  nc2_ls : Option Int
  skew : Option Int
  bw : Option Int
  deriving DecidableEq

/-- The initial state built by `GPSDO.__init__`: outputs disabled,
level 0, all dividers undefined, skew 0, bw 15. -/
def defaultModel : GPSDOModel :=
  { out1 := false
    out2 := false
    level := 0
    fin := none
    n3 := none
    n2_hs := none
    n2_ls := none
    n1_hs := none
    nc1_ls := none
    nc2_ls := none
    skew := some 0
    bw := some 15 }

/-- The keyword arguments of `GPSDO.update`.  A `none` entry models an
absent keyword (or an explicit `None` value, which the source skips the
same way). -/
structure UpdateArgs where
  out1 : Option Bool
  out2 : Option Bool
  level : Option Int
  fin : Option Int
  n3 : Option Int
  n2_hs : Option Int
  n2_ls : Option Int
  n1_hs : Option Int
  nc1_ls : Option Int
  nc2_ls : Option Int
  skew : Option Int
  bw : Option Int
  deriving DecidableEq

/-- Argument record with no keyword supplied. -/
def noArgs : UpdateArgs :=
  { out1 := none
    out2 := none
    level := none
    fin := none
    n3 := none
    n2_hs := none
    n2_ls := none
    n1_hs := none
    nc1_ls := none
    nc2_ls := none
    skew := none
    bw := none }

/-- The per-value check of one row of `GPSDO._CONFIG_CHECKS`, as executed
by the argument loop of `GPSDO.update`: first the range test (which
stores a range message), then the parity test (which overwrites the
message when the value is odd).  `even` is the parity-rule code of the
table: 0 = no rule, 1 = the relaxed rule, 2 = the strict rule.  The
integer-type test of the source is not modelled: values here are
integers by construction. -/
def checkValue (name : String) (vmin vmax : Int) (even : Nat) (rmsg : String)
    (value : Int) : Option String :=
  let r := if value < vmin ∨ value > vmax then
             some (name ++ " must be " ++ rmsg ++ ".")
           else none
  if even ≠ 0 ∧ value % 2 ≠ 0 then
    if even = 1 ∧ value ≠ 1 then some (name ++ " must be 1 or even.")
    else some (name ++ " must be even.")
  else r

/-- The fields checked by `GPSDO.update`: the nine rows of
`_CONFIG_CHECKS` plus the separately validated drive level. -/
inductive CField where
  | fin | n3 | n2_hs | n2_ls | n1_hs | nc1_ls | nc2_ls | skew | bw | level
  deriving DecidableEq

/-- The check of `GPSDO.update` for each field, with the constants of
`GPSDO._CONFIG_CHECKS` (note the `nc1_ls`/`nc2_ls` rows carry vmin = 2
while their message text says "1 to 1048576"), and the drive-level
bound 0..3. -/
def fieldCheck : CField → Int → Option String
  | CField.fin => checkValue "GPS reference frequency" 10000 16000000 0
      "in the range of 10 kHz to 16 MHz"
  | CField.n3 => checkValue "Input divider N3" 1 524288 0
      "in the range of 1 to 524288"
  | CField.n2_hs => checkValue "Feedback divider N2_HS" 4 11 0
      "in the range of 4 to 11"
  | CField.n2_ls => checkValue "Feedback divider N2_LS" 2 1048576 2
      "in the range of 2 to 1048576"
  | CField.n1_hs => checkValue "Output common divider N1_HS" 4 11 0
      "in the range of 4 to 11"
  | CField.nc1_ls => checkValue "Output 1 divider NC1_LS" 2 1048576 1
      "in the range of 1 to 1048576"
  | CField.nc2_ls => checkValue "Output 2 divider NC2_LS" 2 1048576 1
      "in the range of 1 to 1048576"
  | CField.skew => checkValue "SKEW" 0 255 0 "in the range of 0 to 255"
  | CField.bw => checkValue "BWSEL" 0 15 0 "in the range of 0 to 15"
  | CField.level => fun l =>
      if l < 0 ∨ l > 3 then some "Invalid drive level." else none

/-- The supplied value for one checked field. -/
def UpdateArgs.get (a : UpdateArgs) : CField → Option Int
  | CField.fin => a.fin
  | CField.n3 => a.n3
  | CField.n2_hs => a.n2_hs
  | CField.n2_ls => a.n2_ls
  | CField.n1_hs => a.n1_hs
  | CField.nc1_ls => a.nc1_ls
  | CField.nc2_ls => a.nc2_ls
  | CField.skew => a.skew
  | CField.bw => a.bw
  | CField.level => a.level

/-- The per-field error dictionary carried by
`GPSDOConfigurationException`. -/
structure ErrDict where
  fin : Option String
  n3 : Option String
  n2_hs : Option String
  n2_ls : Option String
  n1_hs : Option String
  nc1_ls : Option String
  nc2_ls : Option String
  skew : Option String
  bw : Option String
  level : Option String
  deriving DecidableEq

/-- Entry lookup in the error dictionary. -/
def ErrDict.get (e : ErrDict) : CField → Option String
  | CField.fin => e.fin
  | CField.n3 => e.n3
  | CField.n2_hs => e.n2_hs
  | CField.n2_ls => e.n2_ls
  | CField.n1_hs => e.n1_hs
  | CField.nc1_ls => e.nc1_ls
  | CField.nc2_ls => e.nc2_ls
  | CField.skew => e.skew
  | CField.bw => e.bw
  | CField.level => e.level

/-- `errdict` holds no entry at all (the Python dict is empty, so no
exception is raised). -/
def ErrDict.isEmpty (e : ErrDict) : Bool :=
  e.fin.isNone && e.n3.isNone && e.n2_hs.isNone && e.n2_ls.isNone &&
  e.n1_hs.isNone && e.nc1_ls.isNone && e.nc2_ls.isNone && e.skew.isNone &&
  e.bw.isNone && e.level.isNone

/-- The check phase of `GPSDO.update`: every supplied field is checked
and every failure recorded; the loop never stops at the first failure. -/
def collectErr (a : UpdateArgs) : ErrDict :=
  { fin := a.fin.bind (fieldCheck CField.fin)
    n3 := a.n3.bind (fieldCheck CField.n3)
    n2_hs := a.n2_hs.bind (fieldCheck CField.n2_hs)
    n2_ls := a.n2_ls.bind (fieldCheck CField.n2_ls)
    n1_hs := a.n1_hs.bind (fieldCheck CField.n1_hs)
    nc1_ls := a.nc1_ls.bind (fieldCheck CField.nc1_ls)
    nc2_ls := a.nc2_ls.bind (fieldCheck CField.nc2_ls)
    skew := a.skew.bind (fieldCheck CField.skew)
    bw := a.bw.bind (fieldCheck CField.bw)
    level := a.level.bind (fieldCheck CField.level) }

/-- A supplied value replaces the stored one; an absent argument leaves
the stored value untouched. -/
def updOpt (new old : Option Int) : Option Int :=
  match new with
  | some v => some v
  | none => old

/-- The mutation phase of `GPSDO.update` (the `setattr` loop plus the
out1/out2/level assignments), reached only when no check failed. -/
def applyArgs (m : GPSDOModel) (a : UpdateArgs) : GPSDOModel :=
  { out1 := a.out1.getD m.out1
    out2 := a.out2.getD m.out2
    level := a.level.getD m.level
    fin := updOpt a.fin m.fin
    n3 := updOpt a.n3 m.n3
    n2_hs := updOpt a.n2_hs m.n2_hs
    n2_ls := updOpt a.n2_ls m.n2_ls
    n1_hs := updOpt a.n1_hs m.n1_hs
    nc1_ls := updOpt a.nc1_ls m.nc1_ls
    nc2_ls := updOpt a.nc2_ls m.nc2_ls
    skew := updOpt a.skew m.skew
    bw := updOpt a.bw m.bw }

/-- `GPSDO.update`: check all supplied arguments first; if any check
failed, raise `GPSDOConfigurationException` with the full error
dictionary (mirrored as `Except.error`) before any attribute is
assigned; otherwise assign all supplied values. -/
def GPSDO.update (m : GPSDOModel) (a : UpdateArgs) : Except ErrDict GPSDOModel :=
  let errdict := collectErr a
  if errdict.isEmpty then Except.ok (applyArgs m a)
  else Except.error errdict

/-- The state of the Python object after a call of `update`: the new
state on success, and the prior state when the exception was raised
(the source raises before its mutation loop runs). -/
def GPSDO.updateOrKeep (m : GPSDOModel) (a : UpdateArgs) : GPSDOModel :=
  match GPSDO.update m a with
  | Except.ok m2 => m2
  | Except.error _ => m

/-- The frequency plan returned by `GPSDO.freqplan`: every entry is an
exact rational, or `none` when some input is undefined. -/
structure FreqPlan where
  f3 : Option ℚ
  fosc : Option ℚ
  fout1 : Option ℚ
  fout2 : Option ℚ
  phaseres : Option ℚ
  phase : Option ℚ
  phaseangle : Option ℚ
  phaseangleres : Option ℚ
  deriving DecidableEq

/-- The error dictionary returned by `GPSDO.freqplan`: the nine
configuration fields plus the four derived frequencies. -/
structure FreqErr where
  fin : Option String
  n3 : Option String
  n2_hs : Option String
  n2_ls : Option String
  n1_hs : Option String
  nc1_ls : Option String
  nc2_ls : Option String
  skew : Option String
  bw : Option String
  f3 : Option String
  fosc : Option String
  fout1 : Option String
  fout2 : Option String
  deriving DecidableEq

/-- The triple returned by `GPSDO.freqplan`. -/
structure FreqResult where
  plan : FreqPlan
  err : FreqErr
  errflag : Bool
  deriving DecidableEq

/-- The undefined-check of the first loop of `GPSDO.freqplan`. -/
def undefMsg (name : String) (v : Option Int) : Option String :=
  if v.isNone then some (name ++ " undefined.") else none

/-- One row of the `_FREQ_CHECKS` loop of `GPSDO.freqplan`: undefined
values report an undefined message, the limits are skipped entirely when
`ignore_freq_limits` is set, and out-of-range values report a range
message.  The source interpolates the offending value into the message
with float formatting; that presentation detail is replaced by fixed
text, the claims only observe whether a message is present. -/
def freqRangeMsg (ignore : Bool) (name : String) (lmin lmax : ℚ)
    (rmsg : String) (v : Option ℚ) : Option String :=
  match v with
  | none => some (name ++ " undefined.")
  | some q =>
    if ignore then none
    else if q < lmin ∨ q > lmax then
      some (name ++ " is out of the allowed range, but " ++ rmsg ++ ".")
    else none

/-- `GPSDO.freqplan` with `modify = False` (the default; the
`modify = True` branch only fills in unused output dividers and is not
needed by any claim).  Frequency limits from the source constants:
`LIMIT_F3_MIN = 10000` (chosen "by trial", below the 2 kHz datasheet
bound quoted in the comment), `LIMIT_F3_MAX = 2000000`,
`LIMIT_FOSC = 4.85e9..5.67e9`, `LIMIT_FOUT = 450..808000000`.
Divisions whose Python counterpart would raise `ZeroDivisionError`
(a zero divider) are total here with value 0; the theorems below only
use the function on inputs where the Python code is defined. -/
def GPSDO.freqplan (m : GPSDOModel) (ignore : Bool) : FreqResult :=
  let f3 : Option ℚ :=
    match m.fin, m.n3 with
    | some fin, some n3 => some ((fin : ℚ) / (n3 : ℚ))
    | _, _ => none
  let fosc : Option ℚ :=
    match f3, m.n2_hs, m.n2_ls with
    | some q, some a, some b => some (q * (a : ℚ) * (b : ℚ))
    | _, _, _ => none
  let fout1 : Option ℚ :=
    match fosc, m.n1_hs, m.nc1_ls with
    | some q, some a, some b => some (q / ((a * b : Int) : ℚ))
    | _, _, _ => none
  let fout2 : Option ℚ :=
    match fosc, m.n1_hs, m.nc2_ls with
    | some q, some a, some b => some (q / ((a * b : Int) : ℚ))
    | _, _, _ => none
  let phase : Option ℚ :=
    match fosc, m.n1_hs, m.skew with
    | some q, some a, some s => some (((s * a : Int) : ℚ) / q)
    | _, _, _ => none
  let phaseres : Option ℚ :=
    match fosc, m.n1_hs with
    | some q, some a => some ((a : ℚ) / q)
    | _, _ => none
  let phaseangle : Option ℚ :=
    match m.nc2_ls, m.skew with
    | some n, some s => some (((s % n : Int) : ℚ) / ((n : Int) : ℚ))
    | _, _ => none
  let phaseangleres : Option ℚ :=
    match m.nc2_ls with
    | some n => some ((1 : ℚ) / (n : ℚ))
    | none => none
  -- Dynamic skew check: overwrites the loop entry (which is `none`
  -- whenever skew is defined) when skew exceeds max(nc2_ls - 2, 0).
  let skewErr : Option String :=
    match m.skew, m.nc2_ls with
    | some s, some n =>
      if s > max (n - 2) 0 then
        some "SKEW must be in the range of 0 to NC2_LS - 2."
      else undefMsg "SKEW" m.skew
    | _, _ => undefMsg "SKEW" m.skew
  let err : FreqErr :=
    { fin := undefMsg "GPS reference frequency" m.fin
      n3 := undefMsg "Input divider N3" m.n3
      n2_hs := undefMsg "Feedback divider N2_HS" m.n2_hs
      n2_ls := undefMsg "Feedback divider N2_LS" m.n2_ls
      n1_hs := undefMsg "Output common divider N1_HS" m.n1_hs
      nc1_ls := undefMsg "Output 1 divider NC1_LS" m.nc1_ls
      nc2_ls := undefMsg "Output 2 divider NC2_LS" m.nc2_ls
      skew := skewErr
      bw := undefMsg "BWSEL" m.bw
      f3 := freqRangeMsg ignore "Phase detector frequency" 10000 2000000
        "must be in the range of 2 kHz to 2 MHz" f3
      fosc := freqRangeMsg ignore "Oscillator frequency" 4850000000 5670000000
        "must be in the range of 4.85 GHz to 5.67 GHz" fosc
      fout1 := freqRangeMsg ignore "Output 1 frequency" 450 808000000
        "must be in the range of 450 Hz to 808 MHz" fout1
      fout2 := freqRangeMsg ignore "Output 2 frequency" 450 808000000
        "must be in the range of 450 Hz to 808 MHz" fout2 }
  { plan :=
      { f3 := f3
        fosc := fosc
        fout1 := fout1
        fout2 := fout2
        phaseres := phaseres
        phase := phase
        phaseangle := phaseangle
        phaseangleres := phaseangleres }
    err := err
    errflag := err.fin.isSome || err.n3.isSome || err.n2_hs.isSome ||
      err.n2_ls.isSome || err.n1_hs.isSome || err.nc1_ls.isSome ||
      err.nc2_ls.isSome || err.skew.isSome || err.bw.isSome ||
      err.f3.isSome || err.fosc.isSome || err.fout1.isSome ||
      err.fout2.isSome }

/-- The error raised by Python `struct.pack` when a value does not fit
the format (the spec calls it `OutOfRange`). -/
inductive StructError where
  | outOfRange
  deriving DecidableEq

/-- `struct.pack("<I", x)[0:3]` of `GPSDODevice.write`: pack a Python
int as a 32-bit little-endian unsigned word, then keep the low three
bytes.  `struct.error` is raised only when the value is negative or at
least 2^32; values of 24 or more bits inside that window are packed and
then silently truncated by the slice. -/
def pack3 (x : Int) : Except StructError (List Nat) :=
  if 0 ≤ x ∧ x < 4294967296 then
    Except.ok [x.toNat % 256, x.toNat / 256 % 256, x.toNat / 65536 % 256]
  else Except.error StructError.outOfRange

/-- `struct.pack("<B", x)[0:1]` of `GPSDODevice.write`: one unsigned
byte; `struct.error` outside 0..255. -/
def pack1 (x : Int) : Except StructError Nat :=
  if 0 ≤ x ∧ x < 256 then Except.ok x.toNat
  else Except.error StructError.outOfRange

/-- A fully defined configuration, as required by the buffer-building
code of `GPSDODevice.write` (an undefined field there would make the
Python arithmetic fail before packing). -/
structure FullConfig where
  out1 : Bool
  out2 : Bool
  level : Int
  fin : Int
  n3 : Int
  n2_hs : Int
  n2_ls : Int
  n1_hs : Int
  nc1_ls : Int
  nc2_ls : Int
  skew : Int
  bw : Int
  deriving DecidableEq

/-- The PLL write buffer of `GPSDODevice.write`: command byte
`_COMMAND_PLL = 4`, then fin raw, n3 - 1, n2_hs - 4, n2_ls - 1,
n1_hs - 4, nc1_ls - 1, nc2_ls - 1, skew, bw at payload offsets
1..19, the remaining bytes zero.  The source packs field by field and
the first failing `struct.pack` raises; the nested matches mirror that
order. -/
def encodePLL (c : FullConfig) : Except StructError (List Nat) :=
  match pack3 c.fin with
  | Except.error e => Except.error e
  | Except.ok fin3 =>
  match pack3 (c.n3 - 1) with
  | Except.error e => Except.error e
  | Except.ok n33 =>
  match pack1 (c.n2_hs - 4) with
  | Except.error e => Except.error e
  | Except.ok n2hs1 =>
  match pack3 (c.n2_ls - 1) with
  | Except.error e => Except.error e
  | Except.ok n2ls3 =>
  match pack1 (c.n1_hs - 4) with
  | Except.error e => Except.error e
  | Except.ok n1hs1 =>
  match pack3 (c.nc1_ls - 1) with
  | Except.error e => Except.error e
  | Except.ok nc1ls3 =>
  match pack3 (c.nc2_ls - 1) with
  | Except.error e => Except.error e
  | Except.ok nc2ls3 =>
  match pack1 c.skew with
  | Except.error e => Except.error e
  | Except.ok skew1 =>
  match pack1 c.bw with
  | Except.error e => Except.error e
  | Except.ok bw1 =>
    Except.ok ([4] ++ fin3 ++ n33 ++ [n2hs1] ++ n2ls3 ++ [n1hs1] ++
      nc1ls3 ++ nc2ls3 ++ [skew1, bw1] ++ List.replicate 40 0)

/-- The drive-level write buffer of `GPSDODevice.write`: command byte
`_COMMAND_LEVEL = 3`, level at payload offset 1.  The final `bytes()`
conversion of the source rejects values outside 0..255, modelled by the
same guard as a one-byte pack. -/
def encodeLevel (c : FullConfig) : Except StructError (List Nat) :=
  match pack1 c.level with
  | Except.error e => Except.error e
  | Except.ok l => Except.ok ([3, l] ++ List.replicate 58 0)

/-- The output-enable write buffer of `GPSDODevice.write`: command byte
`_COMMAND_OUTPUT = 1`, payload byte 1 holds bit 0 = out1, bit 1 =
out2. -/
def encodeOutput (c : FullConfig) : List Nat :=
  [1, (if c.out1 then 1 else 0) ||| (if c.out2 then 2 else 0)] ++
    List.replicate 58 0

/-- The field map decoded by `GPSDODevice.read_config`. -/
structure ConfigDict where
  out1 : Bool
  out2 : Bool
  level : Nat
  fin : Nat
  n3 : Nat
  n2_hs : Nat
  n2_ls : Nat
  n1_hs : Nat
  nc1_ls : Nat
  nc2_ls : Nat
  skew : Nat
  bw : Nat
  deriving DecidableEq

/-- `struct.unpack("<I", buf[i:i+3] + bytes([0]))[0]`: a three-byte
little-endian value of the read buffer. -/
def le24 (buf : List Nat) (i : Nat) : Nat :=
  buf.getD i 0 + 256 * buf.getD (i + 1) 0 + 65536 * buf.getD (i + 2) 0

/-- `GPSDODevice.read_config`: decode the feature-report read buffer.
Offsets 0..20: out1/out2 flags at byte 0, level raw at 1, fin raw at
2..4, n3 at 5..7 plus 1, n2_hs at 8 plus 4, n2_ls at 9..11 plus 1,
n1_hs at 12 plus 4, nc1_ls at 13..15 plus 1, nc2_ls at 16..18 plus 1,
skew raw at 19, bw raw at 20.  Shorter buffers would make the Python
`struct.unpack` calls fail, hence the length guard. -/
def read_config (buf : List Nat) : Option ConfigDict :=
  if 21 ≤ buf.length then
    some
      { out1 := buf.getD 0 0 &&& 1 != 0
        out2 := buf.getD 0 0 &&& 2 != 0
        level := buf.getD 1 0
        fin := le24 buf 2
        n3 := le24 buf 5 + 1
        n2_hs := buf.getD 8 0 + 4
        n2_ls := le24 buf 9 + 1
        n1_hs := buf.getD 12 0 + 4
        nc1_ls := le24 buf 13 + 1
        nc2_ls := le24 buf 16 + 1
        skew := buf.getD 19 0
        bw := buf.getD 20 0 }
  else none

/-- A read buffer carrying the payload of the three write buffers: the
output-enable payload byte, the level payload byte, then the 19 PLL
payload bytes (the read layout is the write payload shifted up by the
leading flag and level context bytes). -/
def mkReadBuf (pll lvl outp : List Nat) : List Nat :=
  outp.getD 1 0 :: lvl.getD 1 0 :: (pll.drop 1).take 19

/-- Encode a full configuration to the three write buffers and decode a
read buffer built from the same payload. -/
def roundTrip (c : FullConfig) : Option ConfigDict :=
  match encodePLL c, encodeLevel c with
  | Except.ok pll, Except.ok lvl =>
    read_config (mkReadBuf pll lvl (encodeOutput c))
  | _, _ => none

/-- The field map a full configuration should decode back to (all
values are non-negative in range, so the natural-number image is
faithful). -/
def toDict (c : FullConfig) : ConfigDict :=
  { out1 := c.out1
    out2 := c.out2
    level := c.level.toNat
    fin := c.fin.toNat
    n3 := c.n3.toNat
    n2_hs := c.n2_hs.toNat
    n2_ls := c.n2_ls.toNat
    n1_hs := c.n1_hs.toNat
    nc1_ls := c.nc1_ls.toNat
    nc2_ls := c.nc2_ls.toNat
    skew := c.skew.toNat
    bw := c.bw.toNat }

/-- The three register groups of `GPSDODevice.write`. -/
inductive RegGroup where
  | pll | level | output
  deriving DecidableEq

/-- The diff policy of `GPSDODevice.write`: a group is transmitted iff
the caller forces an overwrite or at least one of its fields differs
from the decoded device configuration.  The model side uses the
`GPSDOModel` attributes exactly as the source compares them. -/
def planWrites (overwrite : Bool) (m : GPSDOModel) (d : ConfigDict) :
    List RegGroup :=
  (if overwrite ∨ m.fin ≠ some (d.fin : Int) ∨ m.n3 ≠ some (d.n3 : Int) ∨
      m.n2_hs ≠ some (d.n2_hs : Int) ∨ m.n2_ls ≠ some (d.n2_ls : Int) ∨
      m.n1_hs ≠ some (d.n1_hs : Int) ∨ m.nc1_ls ≠ some (d.nc1_ls : Int) ∨
      m.nc2_ls ≠ some (d.nc2_ls : Int) ∨ m.skew ≠ some (d.skew : Int) ∨
      m.bw ≠ some (d.bw : Int) then
    [RegGroup.pll] else []) ++
  (if overwrite ∨ m.level ≠ (d.level : Int) then [RegGroup.level] else []) ++
  (if overwrite ∨ m.out1 ≠ d.out1 ∨ m.out2 ≠ d.out2 then [RegGroup.output]
   else [])

/-- Arguments supplying only `nc1_ls = 1`. -/
def argsNC1One : UpdateArgs := { noArgs with nc1_ls := some 1 }

/-- Arguments supplying two invalid fields: `n3 = 0` (range violation)
and `n2_ls = 3` (parity violation). -/
def argsTwoBad : UpdateArgs := { noArgs with n3 := some 0, n2_ls := some 3 }

/-- A model with `fin = 10000` and `n3 = 2`, so `f3 = 5000` lies between
the 2 kHz datasheet bound and the 10 kHz bound of the source. -/
def modelC3 : GPSDOModel := { defaultModel with fin := some 10000, n3 := some 2 }

/-- A model with `skew = 4` and `nc2_ls = 5`. -/
def modelC4 : GPSDOModel :=
  { defaultModel with skew := some 4, nc2_ls := some 5 }

/-- The configuration of the exactness test of the spec: `fout1`
computes to 10.24 GHz, far above the 808 MHz output limit. -/
def modelC7 : GPSDOModel :=
  { out1 := true
    out2 := true
    level := 0
    fin := some 10000000
    n3 := some 1
    n2_hs := some 4
    n2_ls := some 1024
    n1_hs := some 4
    nc1_ls := some 1
    nc2_ls := some 1
    skew := some 0
    bw := some 15 }

/-- A model with `skew = 7` and `nc2_ls = 5` (the wraparound example). -/
def modelC8 : GPSDOModel :=
  { defaultModel with skew := some 7, nc2_ls := some 5 }

/-- A fully defined in-range configuration for the round-trip test. -/
def cfgC5 : FullConfig :=
  { out1 := true
    out2 := false
    level := 2
    fin := 10000000
    n3 := 5
    n2_hs := 5
    n2_ls := 1000
    n1_hs := 7
    nc1_ls := 2
    nc2_ls := 6
    skew := 3
    bw := 7 }

/-- A configuration whose `fin` needs 25 bits: outside the 24-bit field
width, yet inside the window `struct.pack("<I", .)` accepts. -/
def cfgC6Bad : FullConfig :=
  { out1 := false
    out2 := false
    level := 0
    fin := 16777216
    n3 := 1
    n2_hs := 4
    n2_ls := 2
    n1_hs := 4
    nc1_ls := 1
    nc2_ls := 1
    skew := 0
    bw := 0 }

/-- A configuration with `n2_hs = 272`, whose adjusted value 268 does
not fit one byte. -/
def cfgC6Err : FullConfig := { cfgC6Bad with n2_hs := 272 }

/-- A decoded device configuration used as a matching register image. -/
def dictC9 : ConfigDict :=
  { out1 := true
    out2 := false
    level := 1
    fin := 12000000
    n3 := 3
    n2_hs := 4
    n2_ls := 1700
    n1_hs := 9
    nc1_ls := 2
    nc2_ls := 2
    skew := 0
    bw := 15 }

/-- The model agreeing with `dictC9` on every register field. -/
def modelC9 : GPSDOModel :=
  { out1 := true
    out2 := false
    level := 1
    fin := some 12000000
    n3 := some 3
    n2_hs := some 4
    n2_ls := some 1700
    n1_hs := some 9
    nc1_ls := some 2
    nc2_ls := some 2
    skew := some 0
    bw := some 15 }

/-- An all-zero 21-byte read buffer. -/
def bufZero : List Nat := List.replicate 21 0

/-- The field map decoded from the all-zero read buffer. -/
def dictZero : ConfigDict :=
  { out1 := false
    out2 := false
    level := 0
    fin := 0
    n3 := 1
    n2_hs := 4
    n2_ls := 1
    n1_hs := 4
    nc1_ls := 1
    nc2_ls := 1
    skew := 0
    bw := 0 }

theorem collectErr_get (a : UpdateArgs) (f : CField) :
    (collectErr a).get f = (a.get f).bind (fieldCheck f) := by
  cases f <;> rfl

theorem ErrDict.isEmpty_eq_false (e : ErrDict) (f : CField)
    (h : e.get f ≠ none) : e.isEmpty = false := by
  cases f <;>
    simp only [ErrDict.get] at h <;>
    simp [ErrDict.isEmpty, Option.isNone_iff_eq_none, h,
      Option.isSome_iff_ne_none]


/-- Claim C1: the spec states that `update(nc1_ls = 1)` succeeds (the
relaxed "must be 1 or even" rule), and the own message strings of
`_CONFIG_CHECKS` agree ("in the range of 1 to 1048576",
"must be 1 or even"); but the table row carries vmin = 2 and the parity
branch sends the value 1 to the "must be even" error, so the call
raises.  This theorem evaluates the code at the failing input. -/
theorem c1_nc1ls_one_rejected :
    GPSDO.update defaultModel argsNC1One = Except.error (collectErr argsNC1One) ∧
    (collectErr argsNC1One).nc1_ls =
      some "Output 1 divider NC1_LS must be even." := by
  constructor
  · rfl
  · rfl

/-- Claim C2: an `update` call supplying invalid values fails with the
full per-field message map (both of any two violating fields carry
their message, not only the first), and the model is not mutated: the
exception is raised before the assignment loop, so the observable
state after the call is the prior model. -/
theorem c2_update_atomic_all_errors (m : GPSDOModel) (a : UpdateArgs)
    (f g : CField) (v w : Int) (s t : String)
    (hf : a.get f = some v) (hfc : fieldCheck f v = some s)
    (hg : a.get g = some w) (hgc : fieldCheck g w = some t) :
    GPSDO.update m a = Except.error (collectErr a) ∧
    (collectErr a).get f = some s ∧
    (collectErr a).get g = some t ∧
    GPSDO.updateOrKeep m a = m := by
  have hcf : (collectErr a).get f = some s := by
    rw [collectErr_get, hf]
    exact hfc
  have hcg : (collectErr a).get g = some t := by
    rw [collectErr_get, hg]
    exact hgc
  have hne : (collectErr a).isEmpty = false :=
    ErrDict.isEmpty_eq_false _ f (by rw [hcf]; simp)
  have hupd : GPSDO.update m a = Except.error (collectErr a) := by
    unfold GPSDO.update
    simp [hne]
  refine ⟨hupd, hcf, hcg, ?_⟩
  unfold GPSDO.updateOrKeep
  rw [hupd]

theorem c2_update_atomic_all_errors_witness :
    GPSDO.update defaultModel argsTwoBad = Except.error (collectErr argsTwoBad) ∧
    (collectErr argsTwoBad).get CField.n3 =
      some "Input divider N3 must be in the range of 1 to 524288." ∧
    (collectErr argsTwoBad).get CField.n2_ls =
      some "Feedback divider N2_LS must be even." ∧
    GPSDO.updateOrKeep defaultModel argsTwoBad = defaultModel :=
  c2_update_atomic_all_errors defaultModel argsTwoBad CField.n3 CField.n2_ls
    0 3 _ _ rfl rfl rfl rfl

/-- Claim C3 as stated is false: the source checks `f3` against
`LIMIT_F3_MIN = 10000` (chosen "by trial"), not the 2 kHz datasheet
bound.  At `fin = 10000, n3 = 2` the value `f3 = 5000` is inside
2 kHz..2 MHz yet flagged. -/
theorem c3_counterexample :
    ¬(((GPSDO.freqplan modelC3 false).err.f3 ≠ none) ↔
      ((10000 : ℚ) / 2 < 2000 ∨ (10000 : ℚ) / 2 > 2000000)) := by
  intro h
  have h1 : (GPSDO.freqplan modelC3 false).err.f3 ≠ none := by
    unfold GPSDO.freqplan
    simp only [modelC3, defaultModel]
    simp [freqRangeMsg]
  have h2 := h.mp h1
  norm_num at h2

/-- Claim C3, amended: with `f3` defined and the limits not ignored,
`freqplan` flags `f3` iff it lies outside 10 kHz..2 MHz (the lower
bound of the source is 10 kHz, not the 2 kHz datasheet figure). -/
theorem c3_f3_range_amended (m : GPSDOModel) (fin n3 : Int)
    (hf : m.fin = some fin) (h3 : m.n3 = some n3) (h3pos : 0 < n3) :
    ((GPSDO.freqplan m false).err.f3 ≠ none ↔
      ((fin : ℚ) / (n3 : ℚ) < 10000 ∨ (fin : ℚ) / (n3 : ℚ) > 2000000)) := by
  unfold GPSDO.freqplan
  simp only [hf, h3]
  simp only [freqRangeMsg]
  by_cases hq : (fin : ℚ) / (n3 : ℚ) < 10000 ∨ (fin : ℚ) / (n3 : ℚ) > 2000000
  · simp [hq]
  · simp [hq]

theorem c3_f3_range_amended_witness :
    ((GPSDO.freqplan modelC3 false).err.f3 ≠ none ↔
      ((10000 : ℚ) / (2 : ℚ) < 10000 ∨ (10000 : ℚ) / (2 : ℚ) > 2000000)) :=
  c3_f3_range_amended modelC3 10000 2 rfl rfl (by decide)

/-- Claim C4: with both `skew` and `nc2_ls` defined, `freqplan` flags
the skew iff it exceeds `max(nc2_ls - 2, 0)`, for either value of
`ignore_freq_limits` (the check does not consult the flag). -/
theorem c4_skew_ceiling (m : GPSDOModel) (s n : Int) (ign : Bool)
    (hs : m.skew = some s) (hn : m.nc2_ls = some n) :
    ((GPSDO.freqplan m ign).err.skew ≠ none ↔ s > max (n - 2) 0) := by
  unfold GPSDO.freqplan
  simp only [hs, hn, undefMsg]
  by_cases hq : s > max (n - 2) 0
  · simp [hq]
  · simp [hq]

theorem c4_skew_ceiling_witness :
    ((GPSDO.freqplan modelC4 false).err.skew ≠ none ↔
      (4 : Int) > max ((5 : Int) - 2) 0) :=
  c4_skew_ceiling modelC4 4 5 false rfl rfl

/-- Claim C7: for the exactness configuration the plan computes
`fosc = 40960000000` and `fout1 = 10240000000` as exact rationals;
`fout1` is flagged without `ignore_frequency_limits` and not flagged
with it. -/
theorem c7_exactness :
    (GPSDO.freqplan modelC7 false).plan.fosc = some (40960000000 : ℚ) ∧
    (GPSDO.freqplan modelC7 false).plan.fout1 = some (10240000000 : ℚ) ∧
    (GPSDO.freqplan modelC7 false).err.fout1 ≠ none ∧
    (GPSDO.freqplan modelC7 true).err.fout1 = none := by
  refine ⟨?_, ?_, ?_, ?_⟩ <;>
    (unfold GPSDO.freqplan; simp only [modelC7]; simp [freqRangeMsg]) <;>
    norm_num

/-- Claim C8: with `skew` and `nc2_ls` defined and `nc2_ls ≥ 1`, the
phase angle is the exact rational `(skew mod nc2_ls) / nc2_ls` and lies
in `[0, 1)`. -/
theorem c8_phaseangle_wrapped (m : GPSDOModel) (s n : Int) (ign : Bool)
    (hs : m.skew = some s) (hn : m.nc2_ls = some n) (hpos : 1 ≤ n) :
    (GPSDO.freqplan m ign).plan.phaseangle =
      some (((s % n : Int) : ℚ) / ((n : Int) : ℚ)) ∧
    (0 : ℚ) ≤ ((s % n : Int) : ℚ) / ((n : Int) : ℚ) ∧
    ((s % n : Int) : ℚ) / ((n : Int) : ℚ) < 1 := by
  have hn0 : (0 : ℚ) < (n : ℚ) := by exact_mod_cast hpos
  refine ⟨?_, ?_, ?_⟩
  · unfold GPSDO.freqplan
    simp [hs, hn]
  · apply div_nonneg
    · exact_mod_cast Int.emod_nonneg s (by omega)
    · exact le_of_lt hn0
  · rw [div_lt_one hn0]
    exact_mod_cast Int.emod_lt_of_pos s (by omega)

theorem c8_phaseangle_wrapped_witness :
    (GPSDO.freqplan modelC8 false).plan.phaseangle = some ((2 : ℚ) / 5) ∧
    (0 : ℚ) ≤ (2 : ℚ) / 5 ∧ (2 : ℚ) / 5 < 1 := by
  have h := c8_phaseangle_wrapped modelC8 7 5 false rfl rfl (by decide)
  refine ⟨?_, by norm_num, by norm_num⟩
  rw [h.1]
  norm_num

theorem pack3_ok (x : Int) (h0 : 0 ≤ x) (h1 : x < 4294967296) :
    pack3 x = Except.ok
      [x.toNat % 256, x.toNat / 256 % 256, x.toNat / 65536 % 256] := by
  unfold pack3
  rw [if_pos ⟨h0, h1⟩]

theorem pack1_ok (x : Int) (h0 : 0 ≤ x) (h1 : x < 256) :
    pack1 x = Except.ok x.toNat := by
  unfold pack1
  rw [if_pos ⟨h0, h1⟩]

theorem read_config_cons (b0 b1 b2 b3 b4 b5 b6 b7 b8 b9 b10 b11 b12 b13 b14
    b15 b16 b17 b18 b19 b20 : Nat) :
    read_config [b0, b1, b2, b3, b4, b5, b6, b7, b8, b9, b10, b11, b12, b13,
      b14, b15, b16, b17, b18, b19, b20] =
    some
      { out1 := b0 &&& 1 != 0
        out2 := b0 &&& 2 != 0
        level := b1
        fin := b2 + 256 * b3 + 65536 * b4
        n3 := b5 + 256 * b6 + 65536 * b7 + 1
        n2_hs := b8 + 4
        n2_ls := b9 + 256 * b10 + 65536 * b11 + 1
        n1_hs := b12 + 4
        nc1_ls := b13 + 256 * b14 + 65536 * b15 + 1
        nc2_ls := b16 + 256 * b17 + 65536 * b18 + 1
        skew := b19
        bw := b20 } := rfl

theorem mkReadBuf_cons (p1 p2 p3 p4 p5 p6 p7 p8 p9 p10 p11 p12 p13 p14 p15
    p16 p17 p18 p19 l ob : Nat) (prest lrest orest : List Nat) :
    mkReadBuf (4 :: p1 :: p2 :: p3 :: p4 :: p5 :: p6 :: p7 :: p8 :: p9 ::
        p10 :: p11 :: p12 :: p13 :: p14 :: p15 :: p16 :: p17 :: p18 :: p19 ::
        prest)
      (3 :: l :: lrest) (1 :: ob :: orest) =
    [ob, l, p1, p2, p3, p4, p5, p6, p7, p8, p9, p10, p11, p12, p13, p14, p15,
      p16, p17, p18, p19] := rfl

/-- Claim C5: encoding a fully defined model whose fields lie in the
static ranges of the table into the PLL/LEVEL/OUTPUT write buffers and
decoding a read buffer carrying the same payload under the read layout
reproduces every field exactly. -/
theorem c5_roundtrip (c : FullConfig)
    (hfin1 : 10000 ≤ c.fin) (hfin2 : c.fin ≤ 16000000)
    (hn3a : 1 ≤ c.n3) (hn3b : c.n3 ≤ 524288)
    (h2a : 4 ≤ c.n2_hs) (h2b : c.n2_hs ≤ 11)
    (h2la : 2 ≤ c.n2_ls) (h2lb : c.n2_ls ≤ 1048576)
    (h1a : 4 ≤ c.n1_hs) (h1b : c.n1_hs ≤ 11)
    (hc1a : 1 ≤ c.nc1_ls) (hc1b : c.nc1_ls ≤ 1048576)
    (hc2a : 1 ≤ c.nc2_ls) (hc2b : c.nc2_ls ≤ 1048576)
    (hska : 0 ≤ c.skew) (hskb : c.skew ≤ 255)
    (hbwa : 0 ≤ c.bw) (hbwb : c.bw ≤ 15)
    (hlva : 0 ≤ c.level) (hlvb : c.level ≤ 3) :
    roundTrip c = some (toDict c) := by
  have efin := pack3_ok c.fin (by omega) (by omega)
  have en3 := pack3_ok (c.n3 - 1) (by omega) (by omega)
  have en2hs := pack1_ok (c.n2_hs - 4) (by omega) (by omega)
  have en2ls := pack3_ok (c.n2_ls - 1) (by omega) (by omega)
  have en1hs := pack1_ok (c.n1_hs - 4) (by omega) (by omega)
  have enc1 := pack3_ok (c.nc1_ls - 1) (by omega) (by omega)
  have enc2 := pack3_ok (c.nc2_ls - 1) (by omega) (by omega)
  have eskew := pack1_ok c.skew (by omega) (by omega)
  have ebw := pack1_ok c.bw (by omega) (by omega)
  have elvl := pack1_ok c.level (by omega) (by omega)
  unfold roundTrip encodePLL encodeLevel encodeOutput
  rw [efin, en3, en2hs, en2ls, en1hs, enc1, enc2, eskew, ebw, elvl]
  dsimp only
  simp only [List.cons_append, List.nil_append]
  rw [mkReadBuf_cons, read_config_cons]
  simp only [toDict, Option.some.injEq, ConfigDict.mk.injEq]
  refine ⟨?_, ?_, ?_, ?_, ?_, ?_, ?_, ?_, ?_, ?_, ?_, ?_⟩ <;>
    first
      | trivial
      | omega
      | (cases c.out1 <;> cases c.out2 <;> rfl)

theorem c5_roundtrip_witness : roundTrip cfgC5 = some (toDict cfgC5) :=
  c5_roundtrip cfgC5 (by decide) (by decide) (by decide) (by decide)
    (by decide) (by decide) (by decide) (by decide) (by decide) (by decide)
    (by decide) (by decide) (by decide) (by decide) (by decide) (by decide)
    (by decide) (by decide) (by decide) (by decide)

theorem pack3_cases (x : Int) :
    pack3 x = Except.error StructError.outOfRange ∨
    ∃ y, pack3 x = Except.ok y ∧ 0 ≤ x ∧ x < 4294967296 := by
  unfold pack3
  split
  · rename_i hc
    exact Or.inr ⟨_, rfl, hc⟩
  · exact Or.inl rfl

theorem pack1_cases (x : Int) :
    pack1 x = Except.error StructError.outOfRange ∨
    ∃ y, pack1 x = Except.ok y ∧ 0 ≤ x ∧ x < 256 := by
  unfold pack1
  split
  · rename_i hc
    exact Or.inr ⟨_, rfl, hc⟩
  · exact Or.inl rfl

/-- Claim C6 as stated is false for the three-byte fields: a `fin` of
exactly 2^24 does not fit the 24-bit field, yet encoding succeeds,
because `struct.pack("<I", .)` accepts everything below 2^32 and the
slice keeps only the low three bytes (here truncating `fin` to 0). -/
theorem c6_counterexample :
    16777215 < cfgC6Bad.fin ∧
    encodePLL cfgC6Bad =
      Except.ok ([4, 0, 0, 0, 0, 0, 0, 0, 1, 0, 0, 0, 0, 0, 0, 0, 0, 0, 0,
        0] ++ List.replicate 40 0) := by
  constructor
  · decide
  · rfl

/-- Claim C6, amended: encoding the PLL buffer fails with `OutOfRange`
whenever an offset-adjusted one-byte value lies outside 0..255 or an
offset-adjusted three-byte value lies outside 0..2^32-1 (the window of
the 32-bit pack); three-byte values of 2^24..2^32-1 do not fail but are
silently truncated to their low three bytes. -/
theorem c6_encode_out_of_range_amended (c : FullConfig)
    (h : c.fin < 0 ∨ 4294967296 ≤ c.fin ∨
         c.n3 - 1 < 0 ∨ 4294967296 ≤ c.n3 - 1 ∨
         c.n2_hs - 4 < 0 ∨ 256 ≤ c.n2_hs - 4 ∨
         c.n2_ls - 1 < 0 ∨ 4294967296 ≤ c.n2_ls - 1 ∨
         c.n1_hs - 4 < 0 ∨ 256 ≤ c.n1_hs - 4 ∨
         c.nc1_ls - 1 < 0 ∨ 4294967296 ≤ c.nc1_ls - 1 ∨
         c.nc2_ls - 1 < 0 ∨ 4294967296 ≤ c.nc2_ls - 1 ∨
         c.skew < 0 ∨ 256 ≤ c.skew ∨
         c.bw < 0 ∨ 256 ≤ c.bw) :
    encodePLL c = Except.error StructError.outOfRange := by
  unfold encodePLL
  rcases pack3_cases c.fin with h1 | ⟨y1, h1, hb1⟩
  · rw [h1]
  · rw [h1]
    rcases pack3_cases (c.n3 - 1) with h2 | ⟨y2, h2, hb2⟩
    · rw [h2]
    · rw [h2]
      rcases pack1_cases (c.n2_hs - 4) with h3 | ⟨y3, h3, hb3⟩
      · rw [h3]
      · rw [h3]
        rcases pack3_cases (c.n2_ls - 1) with h4 | ⟨y4, h4, hb4⟩
        · rw [h4]
        · rw [h4]
          rcases pack1_cases (c.n1_hs - 4) with h5 | ⟨y5, h5, hb5⟩
          · rw [h5]
          · rw [h5]
            rcases pack3_cases (c.nc1_ls - 1) with h6 | ⟨y6, h6, hb6⟩
            · rw [h6]
            · rw [h6]
              rcases pack3_cases (c.nc2_ls - 1) with h7 | ⟨y7, h7, hb7⟩
              · rw [h7]
              · rw [h7]
                rcases pack1_cases c.skew with h8 | ⟨y8, h8, hb8⟩
                · rw [h8]
                · rw [h8]
                  rcases pack1_cases c.bw with h9 | ⟨y9, h9, hb9⟩
                  · rw [h9]
                  · exfalso
                    rcases h with h|h|h|h|h|h|h|h|h|h|h|h|h|h|h|h|h|h <;>
                      omega

theorem c6_encode_out_of_range_amended_witness :
    encodePLL cfgC6Err = Except.error StructError.outOfRange :=
  c6_encode_out_of_range_amended cfgC6Err (by decide)

/-- Claim C9: when the decoded register image agrees with the desired
model on every field of the three register groups and no overwrite is
forced, no group is transmitted; with overwrite forced, all three
groups are transmitted. -/
theorem c9_plan_writes_diff (m : GPSDOModel) (d : ConfigDict)
    (h1 : m.fin = some (d.fin : Int)) (h2 : m.n3 = some (d.n3 : Int))
    (h3 : m.n2_hs = some (d.n2_hs : Int)) (h4 : m.n2_ls = some (d.n2_ls : Int))
    (h5 : m.n1_hs = some (d.n1_hs : Int)) (h6 : m.nc1_ls = some (d.nc1_ls : Int))
    (h7 : m.nc2_ls = some (d.nc2_ls : Int)) (h8 : m.skew = some (d.skew : Int))
    (h9 : m.bw = some (d.bw : Int)) (h10 : m.level = (d.level : Int))
    (h11 : m.out1 = d.out1) (h12 : m.out2 = d.out2) :
    planWrites false m d = [] ∧
    planWrites true m d = [RegGroup.pll, RegGroup.level, RegGroup.output] := by
  constructor <;>
    simp [planWrites, h1, h2, h3, h4, h5, h6, h7, h8, h9, h10, h11, h12]

theorem c9_plan_writes_diff_witness :
    planWrites false modelC9 dictC9 = [] ∧
    planWrites true modelC9 dictC9 =
      [RegGroup.pll, RegGroup.level, RegGroup.output] :=
  c9_plan_writes_diff modelC9 dictC9 rfl rfl rfl rfl rfl rfl rfl rfl rfl rfl
    rfl rfl

/-- Claim C10: any field map decoded from a read buffer of at least 21
bytes has `n3, n2_ls, nc1_ls, nc2_ls ≥ 1` and `n2_hs, n1_hs ≥ 4`: the
+1 and +4 decode offsets make a zero divider unrepresentable. -/
theorem c10_decode_nonzero_dividers (buf : List Nat) (d : ConfigDict)
    (h : read_config buf = some d) :
    1 ≤ d.n3 ∧ 1 ≤ d.n2_ls ∧ 1 ≤ d.nc1_ls ∧ 1 ≤ d.nc2_ls ∧
    4 ≤ d.n2_hs ∧ 4 ≤ d.n1_hs := by
  unfold read_config at h
  split at h
  · simp only [Option.some.injEq] at h
    subst h
    refine ⟨?_, ?_, ?_, ?_, ?_, ?_⟩ <;> simp
  · exact absurd h (by simp)

theorem c10_decode_nonzero_dividers_witness :
    1 ≤ dictZero.n3 ∧ 1 ≤ dictZero.n2_ls ∧ 1 ≤ dictZero.nc1_ls ∧
    1 ≤ dictZero.nc2_ls ∧ 4 ≤ dictZero.n2_hs ∧ 4 ≤ dictZero.n1_hs :=
  c10_decode_nonzero_dividers bufZero dictZero (by decide)
